import Mathlib

/-!
Shallow embedding of the file-backed Session & Identity Manager from
`src/src/auth_manager.py` (class `AuthenticationManager` and the
`require_role` route guard).

Modelling conventions:
* Timestamps are natural numbers (the source stores ISO strings parsed
  back with `datetime.fromisoformat`; only their ordering matters).
  Durations given in hours are converted to seconds.
* Python dicts (insertion-ordered, unique keys, in-place key update)
  are modelled as association lists with `dictGet` / `dictInsert` /
  `dictDelete` reproducing dict lookup, `d[k] = v` assignment and
  `del d[k]`.
* The backing JSON file of each collection is a `FileState`: absent,
  unparsable (an exception during open/parse), or parsed content.
* The SHA-256 digest is an abstract function `sha256 : String → String`
  passed as a parameter; the salting step `password + secret_key` is
  modelled explicitly, as in `_hash_password`.
* Nondeterministic inputs of the source (the current clock reading,
  `uuid.uuid4()`, `secrets.token_urlsafe(32)`) are explicit parameters.
-/

abbrev Time := Nat

/-- Python dict lookup `d.get(k)` on an insertion-ordered assoc list. -/
def dictGet {α : Type} (k : String) : List (String × α) → Option α
  | [] => none
  | (k', v) :: rest => if k' = k then some v else dictGet k rest

/-- Python dict assignment `d[k] = v`: replace in place if the key exists,
else append. -/
def dictInsert {α : Type} (k : String) (v : α) : List (String × α) → List (String × α)
  | [] => [(k, v)]
  | (k', v') :: rest =>
      if k' = k then (k, v) :: rest else (k', v') :: dictInsert k v rest

/-- Python `del d[k]`: drop the entry with the given key. -/
def dictDelete {α : Type} (k : String) : List (String × α) → List (String × α)
  | [] => []
  | (k', v') :: rest =>
      if k' = k then rest else (k', v') :: dictDelete k rest

/-- Default preferences seeded by `User.__post_init__`. -/
def default_preferences : List (String × String) :=
  [("theme", "light"),
   ("default_experience", "learn_and_do"),
   ("favorite_tools", "[]"),
   ("dashboard_layout", "default")]

/-- A stored user record: the `User` dataclass fields plus the
`password_hash` key merged in by `create_user` / `_initialize_default_users`. -/
structure UserRec where
  user_id : String
  email : String
  name : String
  role : String
  created_at : Time
  last_login : Option Time
  is_active : Bool
  preferences : List (String × String)
  password_hash : String
deriving Repr, DecidableEq

/-- A stored session record (the `Session` dataclass).  `expires_at` is
`none` when the stored timestamp string fails to parse (the
`datetime.fromisoformat` failure branches in `_cleanup_expired_sessions`
and `validate_session`). -/
structure SessionRec where
  session_id : String
  user_id : String
  created_at : Time
  expires_at : Option Time
  last_active : Time
  ip_address : String
  user_agent : String
  is_active : Bool
deriving Repr, DecidableEq

abbrev Users := List (String × UserRec)
abbrev Sessions := List (String × SessionRec)

/-- State of one backing JSON file. -/
inductive FileState (α : Type) where
  | absent : FileState α
  | corrupt : FileState α
  | content : α → FileState α
deriving Repr, DecidableEq

/-- The two backing files owned by the manager. -/
structure AuthState where
  usersFile : FileState Users
  sessionsFile : FileState Sessions
deriving Repr, DecidableEq

/-- The configuration record (`_load_auth_config` defaults, possibly
overridden by `auth_config.json`). -/
structure AuthConfig where
  session_timeout_hours : Nat
  max_sessions_per_user : Nat
  require_strong_passwords : Bool
  allow_registration : Bool
  default_role : String
  enable_guest_mode : Bool
  secret_key : String
deriving Repr, DecidableEq

/-- The `default_config` dict of `_load_auth_config`; the secret key is
`secrets.token_urlsafe(32)`, an explicit parameter here. -/
def default_config (secret : String) : AuthConfig :=
  { session_timeout_hours := 24
    max_sessions_per_user := 5
    require_strong_passwords := false
    allow_registration := true
    default_role := "pm"
    enable_guest_mode := true
    secret_key := secret }

/-- `timedelta(hours=h)` measured in seconds. -/
def hoursToSeconds (h : Nat) : Nat := h * 3600

/-- Python's `str.lower()`, used for case-insensitive email comparison;
written over the character list so that concrete instances reduce. -/
def pyLower (s : String) : String := ⟨s.data.map Char.toLower⟩

/-- `_hash_password`: SHA-256 of the password concatenated with the
process-wide secret key. -/
def hash_password (sha256 : String → String) (cfg : AuthConfig)
    (password : String) : String :=
  sha256 (password ++ cfg.secret_key)

/-- `_load_users`: the parsed file content, or `{}` when the file is
absent or unreadable/unparsable (the `except` branch). -/
def load_users : FileState Users → Users
  | .content us => us
  | _ => []

/-- `_cleanup_expired_sessions`: keep a record only when its expiry
parses, lies strictly in the future, and its active flag is true;
malformed records are skipped by the inner `except: continue`. -/
def cleanup_expired_sessions (now : Time) (sessions : Sessions) : Sessions :=
  sessions.filter fun p =>
    match p.2.expires_at with
    | some e => decide (now < e) && p.2.is_active
    | none => false

/-- `_load_sessions`: parsed content is passed through
`_cleanup_expired_sessions`; an absent or unparsable file yields `{}`. -/
def load_sessions (now : Time) : FileState Sessions → Sessions
  | .content ss => cleanup_expired_sessions now ss
  | _ => []

/-- `_save_users`. -/
def save_users (us : Users) (st : AuthState) : AuthState :=
  { st with usersFile := .content us }

/-- `_save_sessions`. -/
def save_sessions (ss : Sessions) (st : AuthState) : AuthState :=
  { st with sessionsFile := .content ss }

/-- `_initialize_default_users`: when no users exist, provision the
single default PM account and persist it. -/
def init_default_users (sha256 : String → String) (cfg : AuthConfig)
    (now : Time) (st : AuthState) : AuthState :=
  let users := load_users st.usersFile
  if users.isEmpty then
    let default_user : UserRec :=
      { user_id := "default_pm"
        email := "pm@aipmtoolkit.local"
        name := "Product Manager"
        role := "pm"
        created_at := now
        last_login := none
        is_active := true
        preferences := default_preferences
        password_hash := hash_password sha256 cfg "aipm2025" }
    save_users (dictInsert "default_pm" default_user users) st
  else st

/-- Result of `create_user`. -/
inductive CreateResult where
  | ok (user_id : String) (message : String)
  | err (error : String)
deriving Repr, DecidableEq

/-- `create_user`: reject when any existing record (active or not) has a
case-insensitively equal email; otherwise persist a fresh record under a
new identifier (`uuid.uuid4()`, the `new_uid` parameter). -/
def create_user (sha256 : String → String) (cfg : AuthConfig) (now : Time)
    (new_uid : String) (email name password role : String)
    (st : AuthState) : CreateResult × AuthState :=
  let users := load_users st.usersFile
  if users.any (fun p => pyLower p.2.email == pyLower email) then
    (.err "User with this email already exists", st)
  else
    let user : UserRec :=
      { user_id := new_uid
        email := email
        name := name
        role := role
        created_at := now
        last_login := none
        is_active := true
        preferences := default_preferences
        password_hash := hash_password sha256 cfg password }
    (.ok new_uid ("User " ++ name ++ " created successfully"),
     save_users (dictInsert new_uid user users) st)

/-- First stored record whose email matches case-insensitively (the
lookup loop of `authenticate_user`). -/
def find_by_email (email : String) (users : Users) : Option UserRec :=
  (users.find? fun p => pyLower p.2.email == pyLower email).map Prod.snd

/-- Result of `authenticate_user`. -/
inductive AuthResult where
  | ok (session_id user_id email name role : String) (expires_at : Time)
  | err (error : String)
deriving Repr, DecidableEq

def AuthResult.success : AuthResult → Bool
  | .ok .. => true
  | .err _ => false

/-- `authenticate_user`: look up by email, verify the digest, check the
active flag, then create and persist a session (`new_sid` stands for
`secrets.token_urlsafe(32)`) and refresh the user's last login. -/
def authenticate_user (sha256 : String → String) (cfg : AuthConfig)
    (now : Time) (new_sid : String) (email password ip ua : String)
    (st : AuthState) : AuthResult × AuthState :=
  let users := load_users st.usersFile
  match find_by_email email users with
  | none => (.err "Invalid email or password", st)
  | some user_data =>
    if hash_password sha256 cfg password ≠ user_data.password_hash then
      (.err "Invalid email or password", st)
    else if user_data.is_active = false then
      (.err "User account is disabled", st)
    else
      let expires := now + hoursToSeconds cfg.session_timeout_hours
      let session : SessionRec :=
        { session_id := new_sid
          user_id := user_data.user_id
          created_at := now
          expires_at := some expires
          last_active := now
          ip_address := ip
          user_agent := ua
          is_active := true }
      let sessions := load_sessions now st.sessionsFile
      let st1 := save_sessions (dictInsert new_sid session sessions) st
      let user' := { user_data with last_login := some now }
      let st2 := save_users (dictInsert user_data.user_id user' users) st1
      (.ok new_sid user_data.user_id user_data.email user_data.name
         user_data.role expires, st2)

/-- Result of `validate_session`. -/
inductive ValidateResult where
  | valid (user_id email name role session_id : String)
      (created_at expires_at last_active : Time)
  | invalid (error : String)
deriving Repr, DecidableEq

/-- `validate_session`: empty token, then lookup in the (cleaned) loaded
sessions, then the expiry branch, then refresh last-active and re-check
that the owning user exists and is active. -/
def validate_session (now : Time) (session_id : String)
    (st : AuthState) : ValidateResult × AuthState :=
  if session_id = "" then (.invalid "No session ID provided", st)
  else
    let sessions := load_sessions now st.sessionsFile
    match dictGet session_id sessions with
    | none => (.invalid "Session not found", st)
    | some session_data =>
      match session_data.expires_at with
      | none => (.invalid "Invalid session data", st)
      | some e =>
        if e < now then
          (.invalid "Session expired",
           save_sessions (dictDelete session_id sessions) st)
        else
          let session' := { session_data with last_active := now }
          let st1 := save_sessions (dictInsert session_id session' sessions) st
          let users := load_users st.usersFile
          match dictGet session_data.user_id users with
          | none => (.invalid "User account not found or disabled", st1)
          | some user_data =>
            if user_data.is_active = false then
              (.invalid "User account not found or disabled", st1)
            else
              (.valid user_data.user_id user_data.email user_data.name
                 user_data.role session_id session_data.created_at e now, st1)

/-- Result of `guest_session`. -/
inductive GuestResult where
  | ok (session_id user_id : String) (expires_at : Time)
  | err (error : String)
deriving Repr, DecidableEq

def GuestResult.expiresAt : GuestResult → Option Time
  | .ok _ _ e => some e
  | .err _ => none

/-- `guest_session`: gated on `enable_guest_mode`; builds a synthetic
guest identity `guest_<epoch>` that is never stored as a user, and a
session expiring a fixed two hours after creation. -/
def guest_session (cfg : AuthConfig) (now : Time) (new_sid : String)
    (ip ua : String) (st : AuthState) : GuestResult × AuthState :=
  if cfg.enable_guest_mode = false then
    (.err "Guest mode is disabled", st)
  else
    let guest_id := "guest_" ++ toString now
    let expires := now + hoursToSeconds 2
    let session : SessionRec :=
      { session_id := new_sid
        user_id := guest_id
        created_at := now
        expires_at := some expires
        last_active := now
        ip_address := ip
        user_agent := ua
        is_active := true }
    let sessions := load_sessions now st.sessionsFile
    (.ok new_sid guest_id expires,
     save_sessions (dictInsert new_sid session sessions) st)

/-- `logout_user`: delete the session if present. -/
def logout_user (now : Time) (session_id : String)
    (st : AuthState) : Bool × AuthState :=
  let sessions := load_sessions now st.sessionsFile
  match dictGet session_id sessions with
  | some _ => (true, save_sessions (dictDelete session_id sessions) st)
  | none => (false, st)

/-- The fixed `role_hierarchy` dict of `require_role`. -/
def role_hierarchy : List (String × Nat) :=
  [("viewer", 1), ("pm", 2), ("admin", 3)]

/-- `role_hierarchy.get(role, default)`. -/
def role_rank (default : Nat) (role : String) : Nat :=
  (dictGet role role_hierarchy).getD default

/-- The guard condition of `require_role`: the request is allowed unless
`role_hierarchy.get(user_role, 0) < role_hierarchy.get(required_role, 999)`. -/
def require_role_allows (user_role required_role : String) : Bool :=
  if role_rank 0 user_role < role_rank 999 required_role then false else true

/-- A concrete stored user whose account has been deactivated, used to
exercise the disabled-account path of `authenticate_user`.  Its digest
is `hash_password id (default_config "") "pw"`. -/
def sampleDisabledUser : UserRec :=
  { user_id := "u1"
    email := "a@b.c"
    name := "A"
    role := "pm"
    created_at := 0
    last_login := none
    is_active := false
    preferences := []
    password_hash := "pw" ++ "" }

/-- A concrete stored session expiring at time 100, used to exercise the
expiry paths of `validate_session`. -/
def sampleSession : SessionRec :=
  { session_id := "S"
    user_id := "u1"
    created_at := 0
    expires_at := some 100
    last_active := 0
    ip_address := ""
    user_agent := ""
    is_active := true }

/-! ## Helper lemmas about the dict model -/

theorem dictGet_filter_eq_none {α : Type} (k : String) (p : String × α → Bool)
    (l : List (String × α)) (h : ∀ v, (k, v) ∈ l → p (k, v) = false) :
    dictGet k (l.filter p) = none := by
  induction l with
  | nil => rfl
  | cons x rest ih =>
    obtain ⟨k', v'⟩ := x
    have ihq : dictGet k (rest.filter p) = none :=
      ih fun v hv => h v (List.mem_cons_of_mem _ hv)
    by_cases hk : k' = k
    · subst hk
      have hp := h v' (List.mem_cons_self _ _)
      simp [List.filter_cons, hp, ihq]
    · cases hpv : p (k', v') with
      | true => simp [List.filter_cons, hpv, dictGet, hk, ihq]
      | false => simp [List.filter_cons, hpv, ihq]

theorem dictGet_filter_dictInsert {α : Type} (k : String) (v : α)
    (p : String × α → Bool) (l : List (String × α)) (hp : p (k, v) = true) :
    dictGet k ((dictInsert k v l).filter p) = some v := by
  induction l with
  | nil => simp [dictInsert, List.filter_cons, hp, dictGet]
  | cons x rest ih =>
    obtain ⟨k', v'⟩ := x
    by_cases hk : k' = k
    · subst hk
      simp [dictInsert, List.filter_cons, hp, dictGet]
    · cases hpv : p (k', v') with
      | true => simp [dictInsert, hk, List.filter_cons, hpv, dictGet, ih]
      | false => simp [dictInsert, hk, List.filter_cons, hpv, ih]

theorem find?_dictInsert {α : Type} (k : String) (v : α)
    (p : String × α → Bool) (l : List (String × α)) (hp : p (k, v) = true)
    (hl : ∀ x ∈ l, p x = false) :
    (dictInsert k v l).find? p = some (k, v) := by
  induction l with
  | nil => simp [dictInsert, List.find?, hp]
  | cons x rest ih =>
    obtain ⟨k', v'⟩ := x
    have hx := hl (k', v') (List.mem_cons_self _ _)
    have ihq := ih fun y hy => hl y (List.mem_cons_of_mem _ hy)
    by_cases hk : k' = k
    · subst hk
      simp [dictInsert, List.find?, hp]
    · simp [dictInsert, hk, List.find?, hx, ihq]

theorem dictInsert_eq_append {α : Type} (k : String) (v : α)
    (l : List (String × α)) (h : dictGet k l = none) :
    dictInsert k v l = l ++ [(k, v)] := by
  induction l with
  | nil => rfl
  | cons x rest ih =>
    obtain ⟨k', v'⟩ := x
    by_cases hk : k' = k
    · subst hk; simp [dictGet] at h
    · simp [dictGet, hk] at h
      simp [dictInsert, hk, ih h]

theorem load_users_content (us : Users) : load_users (.content us) = us := rfl

theorem load_sessions_content (now : Time) (ss : Sessions) :
    load_sessions now (.content ss) = cleanup_expired_sessions now ss := rfl

theorem save_users_usersFile (us : Users) (st : AuthState) :
    (save_users us st).usersFile = .content us := rfl

theorem save_sessions_usersFile (ss : Sessions) (st : AuthState) :
    (save_sessions ss st).usersFile = st.usersFile := rfl

theorem save_sessions_sessionsFile (ss : Sessions) (st : AuthState) :
    (save_sessions ss st).sessionsFile = .content ss := rfl

theorem string_append_right_cancel (a b s : String) (h : a ++ s = b ++ s) :
    a = b := by
  have hd : a.data ++ s.data = b.data ++ s.data := by
    have := congrArg String.data h
    simpa [String.data_append] using this
  have hab : a.data = b.data := List.append_cancel_right hd
  cases a; cases b
  exact congrArg String.mk hab

/-! ## Claim theorems -/

/-- C7: the role-minimum check of `require_role` follows the fixed order
`viewer(1) < pm(2) < admin(3)`: `admin` satisfies a `pm`-minimum check,
`pm` satisfies a `pm`-minimum check, and `viewer` does not. -/
theorem C7_role_ordering :
    require_role_allows "admin" "pm" = true ∧
    require_role_allows "pm" "pm" = true ∧
    require_role_allows "viewer" "pm" = false := by
  decide

/-- C8: loading the user collection or the session collection over an
absent or unparsable backing file yields the empty mapping; both loaders
are total functions of the file state, so no exception reaches the
caller. -/
theorem C8_load_degrades_to_empty (now : Time) :
    load_users .absent = [] ∧ load_users .corrupt = [] ∧
    load_sessions now .absent = [] ∧ load_sessions now .corrupt = [] :=
  ⟨rfl, rfl, rfl, rfl⟩

/-- C1 counterexample: under the default configuration
(`session_timeout_hours = 24`), a guest session lives a fixed two hours
(7200), while one quarter of the configured timeout would be six hours
(21600); the claimed equality fails. -/
theorem C1_counterexample :
    (guest_session (default_config "k") 0 "sid" "" ""
        ⟨.absent, .absent⟩).1.expiresAt = some (hoursToSeconds 2) ∧
    hoursToSeconds 2 ≠
      hoursToSeconds ((default_config "k").session_timeout_hours / 4) := by
  exact ⟨rfl, by decide⟩

/-- C1 (amended): for every configuration with guest mode enabled, a
guest session's expiry minus its creation time equals a fixed two hours,
independent of `session_timeout_hours`. -/
theorem C1_guest_lifetime_fixed_two_hours (cfg : AuthConfig)
    (hguest : cfg.enable_guest_mode = true) (now : Time)
    (sid ip ua : String) (st : AuthState) :
    (guest_session cfg now sid ip ua st).1.expiresAt
      = some (now + hoursToSeconds 2) ∧
    (now + hoursToSeconds 2) - now = hoursToSeconds 2 := by
  constructor
  · simp [guest_session, hguest, GuestResult.expiresAt]
  · exact Nat.add_sub_cancel_left now (hoursToSeconds 2)

/-- C1 witness: the amended guest-lifetime bound at a concrete
configuration, creation time 7 and an empty store. -/
theorem C1_guest_lifetime_witness :
    (guest_session (default_config "k") 7 "sid" "" ""
        ⟨.absent, .absent⟩).1.expiresAt = some (7 + hoursToSeconds 2) ∧
    (7 + hoursToSeconds 2) - 7 = hoursToSeconds 2 :=
  C1_guest_lifetime_fixed_two_hours (default_config "k") rfl 7 "sid" "" ""
    ⟨.absent, .absent⟩

/-- C9: constructing the manager over a state with no user records
provisions exactly the one default PM account
(`pm@aipmtoolkit.local`, password `aipm2025`, role `pm`); when records
already exist, construction changes nothing. -/
theorem C9_default_user_provisioning (sha256 : String → String)
    (cfg : AuthConfig) (now : Time) (st : AuthState) :
    (load_users st.usersFile = [] →
      (init_default_users sha256 cfg now st).usersFile =
        .content [("default_pm",
          { user_id := "default_pm"
            email := "pm@aipmtoolkit.local"
            name := "Product Manager"
            role := "pm"
            created_at := now
            last_login := none
            is_active := true
            preferences := default_preferences
            password_hash := hash_password sha256 cfg "aipm2025" })]) ∧
    (load_users st.usersFile ≠ [] →
      init_default_users sha256 cfg now st = st) := by
  constructor
  · intro h
    simp [init_default_users, h, save_users, dictInsert]
  · intro h
    have hne : (load_users st.usersFile).isEmpty = false := by
      cases hu : load_users st.usersFile with
      | nil => exact absurd hu h
      | cons a l => rfl
    simp [init_default_users, hne]

/-- C9 witness: first-run provisioning over an absent users file, and a
no-op over a nonempty store. -/
theorem C9_default_user_provisioning_witness :
    (init_default_users id (default_config "k") 3
        ⟨.absent, .absent⟩).usersFile =
      .content [("default_pm",
        { user_id := "default_pm"
          email := "pm@aipmtoolkit.local"
          name := "Product Manager"
          role := "pm"
          created_at := 3
          last_login := none
          is_active := true
          preferences := default_preferences
          password_hash := hash_password id (default_config "k") "aipm2025" })] ∧
    init_default_users id (default_config "k") 3
        ⟨.content [("u1", sampleDisabledUser)], .absent⟩ =
      ⟨.content [("u1", sampleDisabledUser)], .absent⟩ :=
  ⟨(C9_default_user_provisioning id (default_config "k") 3
      ⟨.absent, .absent⟩).1 rfl,
   (C9_default_user_provisioning id (default_config "k") 3
      ⟨.content [("u1", sampleDisabledUser)], .absent⟩).2 (by decide)⟩

/-- C6: every record present in a loaded session collection has an
expiry strictly later than the load time and a true active flag. -/
theorem C6_loaded_sessions_unexpired_active (now : Time)
    (sf : FileState Sessions) (sid : String) (s : SessionRec)
    (hmem : (sid, s) ∈ load_sessions now sf) :
    ∃ e, s.expires_at = some e ∧ now < e ∧ s.is_active = true := by
  cases sf with
  | absent => simp [load_sessions] at hmem
  | corrupt => simp [load_sessions] at hmem
  | content ss =>
    have hkeep := List.of_mem_filter hmem
    cases he : s.expires_at with
    | none => simp [he] at hkeep
    | some e =>
      simp [he] at hkeep
      exact ⟨e, rfl, hkeep.1, hkeep.2⟩

/-- C6 witness: the invariant at a concrete loaded collection holding
`sampleSession` at time 5. -/
theorem C6_loaded_sessions_witness :
    ∃ e, sampleSession.expires_at = some e ∧ 5 < e ∧
      sampleSession.is_active = true :=
  C6_loaded_sessions_unexpired_active 5 (.content [("S", sampleSession)])
    "S" sampleSession (by decide)

/-- C2 counterexample: `sampleSession` expires at 100, yet validating
its token at exactly time 100 (≥ expiry) reports `"Session not found"`,
not the distinct `"Session expired"` reason — the load-time cleanup
removes the record before the expiry branch can run. -/
theorem C2_counterexample :
    (validate_session 100 "S"
        ⟨.absent, .content [("S", sampleSession)]⟩).1
      = .invalid "Session not found" ∧
    (validate_session 100 "S"
        ⟨.absent, .content [("S", sampleSession)]⟩).1
      ≠ .invalid "Session expired" := by
  decide

/-- C2 (amended): for every token whose stored records all carry an
expiry at or before the validation time, `validate_session` fails with
the `"Session not found"` reason (the load-time garbage collection drops
the expired record before the dedicated expiry branch is reached),
leaves the state unchanged, and the record is absent from the mapping
returned by every load at that time or later. -/
theorem C2_expired_session_not_found (ss : Sessions)
    (uf : FileState Users) (sid : String) (tq : Time)
    (hsid : sid ≠ "")
    (hexp : ∀ s : SessionRec, (sid, s) ∈ ss →
      ∃ e, s.expires_at = some e ∧ e ≤ tq) :
    (validate_session tq sid ⟨uf, .content ss⟩).1
      = .invalid "Session not found" ∧
    (validate_session tq sid ⟨uf, .content ss⟩).2 = ⟨uf, .content ss⟩ ∧
    ∀ t2, tq ≤ t2 →
      dictGet sid (load_sessions t2 (.content ss)) = none := by
  have hnone : ∀ t2, tq ≤ t2 →
      dictGet sid (load_sessions t2 (.content ss)) = none := by
    intro t2 ht2
    apply dictGet_filter_eq_none
    intro v hv
    obtain ⟨e, he, hle⟩ := hexp v hv
    have hne : ¬ (t2 < e) := Nat.not_lt.mpr (le_trans hle ht2)
    simp [he, hne]
  refine ⟨?_, ?_, hnone⟩ <;>
    simp [validate_session, hsid, hnone tq le_rfl]

/-- C2 witness: the amended behavior at `sampleSession` (expiry 100)
validated at time 150, with absence checked at a later load at 200. -/
theorem C2_expired_session_witness :
    (validate_session 150 "S"
        ⟨.absent, .content [("S", sampleSession)]⟩).1
      = .invalid "Session not found" ∧
    dictGet "S" (load_sessions 200 (.content [("S", sampleSession)]))
      = none :=
  ⟨(C2_expired_session_not_found [("S", sampleSession)] .absent "S" 150
      (by decide)
      (fun s hs => by
        simp only [List.mem_singleton, Prod.mk.injEq] at hs
        obtain ⟨-, rfl⟩ := hs
        exact ⟨100, rfl, by decide⟩)).1,
   (C2_expired_session_not_found [("S", sampleSession)] .absent "S" 150
      (by decide)
      (fun s hs => by
        simp only [List.mem_singleton, Prod.mk.injEq] at hs
        obtain ⟨-, rfl⟩ := hs
        exact ⟨100, rfl, by decide⟩)).2.2 200 (by decide)⟩

/-- C3 counterexample: with `sampleDisabledUser` stored (inactive,
digest matching password `"pw"`), authenticating with the correct
password returns the distinct `"User account is disabled"` message,
while an unknown email returns the generic `"Invalid email or
password"` — the three failure cases do not share one message. -/
theorem C3_counterexample :
    (authenticate_user id (default_config "") 0 "sid" "a@b.c" "pw" "" ""
        ⟨.content [("u1", sampleDisabledUser)], .absent⟩).1
      = .err "User account is disabled" ∧
    (authenticate_user id (default_config "") 0 "sid" "nobody@b.c" "pw"
        "" "" ⟨.content [("u1", sampleDisabledUser)], .absent⟩).1
      = .err "Invalid email or password" ∧
    AuthResult.err "User account is disabled"
      ≠ AuthResult.err "Invalid email or password" := by
  decide

/-- C3 (amended): unknown email and wrong password both yield the same
generic `"Invalid email or password"` message, but an inactive account
with a matching digest yields the distinct `"User account is disabled"`
message, so a caller can distinguish the disabled-account case. -/
theorem C3_failure_messages (sha256 : String → String)
    (cfg : AuthConfig) (now : Time) (new_sid email password ip ua : String)
    (st : AuthState) :
    (find_by_email email (load_users st.usersFile) = none →
      (authenticate_user sha256 cfg now new_sid email password ip ua st).1
        = .err "Invalid email or password") ∧
    (∀ u, find_by_email email (load_users st.usersFile) = some u →
      hash_password sha256 cfg password ≠ u.password_hash →
      (authenticate_user sha256 cfg now new_sid email password ip ua st).1
        = .err "Invalid email or password") ∧
    (∀ u, find_by_email email (load_users st.usersFile) = some u →
      hash_password sha256 cfg password = u.password_hash →
      u.is_active = false →
      (authenticate_user sha256 cfg now new_sid email password ip ua st).1
        = .err "User account is disabled") := by
  refine ⟨fun h => ?_, fun u h hne => ?_, fun u h heq hina => ?_⟩
  · simp [authenticate_user, h]
  · simp [authenticate_user, h, hne]
  · simp [authenticate_user, h, heq, hina]

/-- C3 witness: the disabled-account branch of the amended claim at
`sampleDisabledUser` with the correct password. -/
theorem C3_failure_messages_witness :
    (authenticate_user id (default_config "") 0 "sid" "a@b.c" "pw" "" ""
        ⟨.content [("u1", sampleDisabledUser)], .absent⟩).1
      = .err "User account is disabled" :=
  (C3_failure_messages id (default_config "") 0 "sid" "a@b.c" "pw" "" ""
      ⟨.content [("u1", sampleDisabledUser)], .absent⟩).2.2
    sampleDisabledUser (by decide) (by decide) (by decide)

/-- C4: creating a user whose email is case-insensitively equal to any
stored record's email (whether that record is active or not) fails and
leaves the state unchanged; consequently, pairwise distinctness of
normalized emails among stored users is preserved by every
`create_user` call. -/
theorem C4_email_uniqueness (sha256 : String → String) (cfg : AuthConfig)
    (now : Time) (new_uid email name password role : String)
    (st : AuthState) :
    ((∃ p ∈ load_users st.usersFile, pyLower p.2.email = pyLower email) →
      create_user sha256 cfg now new_uid email name password role st
        = (.err "User with this email already exists", st)) ∧
    (dictGet new_uid (load_users st.usersFile) = none →
      (load_users st.usersFile).Pairwise
        (fun a b => pyLower a.2.email ≠ pyLower b.2.email) →
      (load_users (create_user sha256 cfg now new_uid email name password
          role st).2.usersFile).Pairwise
        (fun a b => pyLower a.2.email ≠ pyLower b.2.email)) := by
  constructor
  · rintro ⟨p, hp, hpe⟩
    have hany : (load_users st.usersFile).any
        (fun q => pyLower q.2.email == pyLower email) = true :=
      List.any_eq_true.mpr ⟨p, hp, by simp [hpe]⟩
    simp [create_user, hany]
  · intro hfresh hpair
    by_cases hany : (load_users st.usersFile).any
        (fun q => pyLower q.2.email == pyLower email) = true
    · simpa [create_user, hany] using hpair
    · have hall : ∀ q ∈ load_users st.usersFile,
          pyLower q.2.email ≠ pyLower email := by
        intro q hq hqe
        exact hany (List.any_eq_true.mpr ⟨q, hq, by simp [hqe]⟩)
      have hstate : create_user sha256 cfg now new_uid email name password
          role st
          = (.ok new_uid ("User " ++ name ++ " created successfully"),
             save_users (dictInsert new_uid
               { user_id := new_uid, email := email, name := name,
                 role := role, created_at := now, last_login := none,
                 is_active := true, preferences := default_preferences,
                 password_hash := hash_password sha256 cfg password }
               (load_users st.usersFile)) st) := by
        simp only [create_user]
        rw [if_neg hany]
      rw [hstate, save_users_usersFile, load_users_content,
        dictInsert_eq_append _ _ _ hfresh]
      refine List.pairwise_append.mpr
        ⟨hpair, List.pairwise_singleton _ _, ?_⟩
      intro a ha b hb
      simp only [List.mem_singleton] at hb
      subst hb
      exact hall a ha

/-- C4 witness: rejection (with unchanged state) for an email differing
only in case from the stored one, and preserved distinctness after a
successful creation with a fresh email. -/
theorem C4_email_uniqueness_witness :
    create_user id (default_config "") 0 "u2" "A@B.C" "B" "x" "pm"
        ⟨.content [("u1", sampleDisabledUser)], .absent⟩
      = (.err "User with this email already exists",
         ⟨.content [("u1", sampleDisabledUser)], .absent⟩) ∧
    (load_users (create_user id (default_config "") 0 "u2" "x@y.z" "B"
        "x" "pm" ⟨.content [("u1", sampleDisabledUser)],
          .absent⟩).2.usersFile).Pairwise
      (fun a b => pyLower a.2.email ≠ pyLower b.2.email) :=
  ⟨(C4_email_uniqueness id (default_config "") 0 "u2" "A@B.C" "B" "x"
      "pm" ⟨.content [("u1", sampleDisabledUser)], .absent⟩).1
      ⟨("u1", sampleDisabledUser), by decide, by decide⟩,
   (C4_email_uniqueness id (default_config "") 0 "u2" "x@y.z" "B" "x"
      "pm" ⟨.content [("u1", sampleDisabledUser)], .absent⟩).2
      (by decide) (by decide)⟩

/-- C5: immediately after a successful `create_user`, authenticating
with the same password succeeds — also when the email is supplied with
different letter case — and authenticating with any other password
fails with the generic error, assuming the digest function is
collision-free (injective). -/
theorem C5_password_roundtrip (sha256 : String → String)
    (hinj : Function.Injective sha256) (cfg : AuthConfig) (now t : Time)
    (new_uid new_sid email name password role ip ua : String)
    (st : AuthState)
    (hnocol : ∀ p ∈ load_users st.usersFile,
      pyLower p.2.email ≠ pyLower email) :
    (∀ email2, pyLower email2 = pyLower email →
      (authenticate_user sha256 cfg t new_sid email2 password ip ua
        (create_user sha256 cfg now new_uid email name password role
          st).2).1.success = true) ∧
    (∀ p2, p2 ≠ password →
      (authenticate_user sha256 cfg t new_sid email p2 ip ua
        (create_user sha256 cfg now new_uid email name password role
          st).2).1 = .err "Invalid email or password") := by
  have hany : ¬ ((load_users st.usersFile).any
      (fun q => pyLower q.2.email == pyLower email) = true) := by
    intro h
    obtain ⟨q, hq, hqe⟩ := List.any_eq_true.mp h
    exact hnocol q hq (by simpa using hqe)
  have hstate : (create_user sha256 cfg now new_uid email name password
      role st).2
      = save_users (dictInsert new_uid
          { user_id := new_uid, email := email, name := name,
            role := role, created_at := now, last_login := none,
            is_active := true, preferences := default_preferences,
            password_hash := hash_password sha256 cfg password }
          (load_users st.usersFile)) st := by
    simp only [create_user]
    rw [if_neg hany]
  have hfind : ∀ email2, pyLower email2 = pyLower email →
      find_by_email email2 (load_users (create_user sha256 cfg now
        new_uid email name password role st).2.usersFile)
      = some { user_id := new_uid, email := email, name := name,
               role := role, created_at := now, last_login := none,
               is_active := true, preferences := default_preferences,
               password_hash := hash_password sha256 cfg password } := by
    intro email2 he2
    rw [hstate, save_users_usersFile, load_users_content, find_by_email,
      find?_dictInsert _ _ _ _ (by simp [he2])
        (fun x hx => by simpa [he2] using hnocol x hx)]
    rfl
  constructor
  · intro email2 he2
    simp [authenticate_user, hfind email2 he2, hash_password,
      AuthResult.success]
  · intro p2 hp2
    have hhash : hash_password sha256 cfg p2
        ≠ hash_password sha256 cfg password := by
      intro h
      exact hp2 (string_append_right_cancel _ _ _ (hinj h))
    simp [authenticate_user, hfind email rfl, hhash]

/-- C5 witness: after creating `alice@example.com` with password
`hunter2` in an empty store, login with `ALICE@EXAMPLE.COM` and the
same password succeeds, and login with password `wrong` fails with the
generic message. -/
theorem C5_password_roundtrip_witness :
    (authenticate_user id (default_config "") 5 "sid" "ALICE@EXAMPLE.COM"
        "hunter2" "" "" (create_user id (default_config "") 0 "u1"
          "alice@example.com" "Alice" "hunter2" "pm"
          ⟨.absent, .absent⟩).2).1.success = true ∧
    (authenticate_user id (default_config "") 5 "sid" "alice@example.com"
        "wrong" "" "" (create_user id (default_config "") 0 "u1"
          "alice@example.com" "Alice" "hunter2" "pm"
          ⟨.absent, .absent⟩).2).1 = .err "Invalid email or password" :=
  ⟨(C5_password_roundtrip id Function.injective_id (default_config "")
      0 5 "u1" "sid" "alice@example.com" "Alice" "hunter2" "pm" "" ""
      ⟨.absent, .absent⟩ (by simp [load_users])).1
      "ALICE@EXAMPLE.COM" (by decide),
   (C5_password_roundtrip id Function.injective_id (default_config "")
      0 5 "u1" "sid" "alice@example.com" "Alice" "hunter2" "pm" "" ""
      ⟨.absent, .absent⟩ (by simp [load_users])).2
      "wrong" (by decide)⟩

/-- C10: a token issued by a successful `guest_session` call fails
`validate_session` even strictly before its expiry: the synthetic guest
identifier is never stored in the user collection, and validation
requires the owning user record to exist and be active. -/
theorem C10_guest_session_never_validates (cfg : AuthConfig)
    (hguest : cfg.enable_guest_mode = true) (now t : Time)
    (sid ip ua : String) (st : AuthState) (hsid : sid ≠ "")
    (ht : t < now + hoursToSeconds 2)
    (huser : dictGet ("guest_" ++ toString now)
      (load_users st.usersFile) = none) :
    (guest_session cfg now sid ip ua st).1
      = .ok sid ("guest_" ++ toString now) (now + hoursToSeconds 2) ∧
    (validate_session t sid (guest_session cfg now sid ip ua st).2).1
      = .invalid "User account not found or disabled" := by
  have hgs : guest_session cfg now sid ip ua st
      = (.ok sid ("guest_" ++ toString now) (now + hoursToSeconds 2),
         save_sessions (dictInsert sid
           { session_id := sid, user_id := "guest_" ++ toString now,
             created_at := now,
             expires_at := some (now + hoursToSeconds 2),
             last_active := now, ip_address := ip, user_agent := ua,
             is_active := true }
           (load_sessions now st.sessionsFile)) st) := by
    simp only [guest_session]
    rw [if_neg (by simp [hguest])]
  refine ⟨by rw [hgs], ?_⟩
  have hget : dictGet sid (load_sessions t
      (save_sessions (dictInsert sid
        { session_id := sid, user_id := "guest_" ++ toString now,
          created_at := now, expires_at := some (now + hoursToSeconds 2),
          last_active := now, ip_address := ip, user_agent := ua,
          is_active := true }
        (load_sessions now st.sessionsFile)) st).sessionsFile)
      = some { session_id := sid, user_id := "guest_" ++ toString now,
               created_at := now,
               expires_at := some (now + hoursToSeconds 2),
               last_active := now, ip_address := ip, user_agent := ua,
               is_active := true } := by
    rw [save_sessions_sessionsFile, load_sessions_content,
      cleanup_expired_sessions]
    exact dictGet_filter_dictInsert _ _ _ _ (by simp [ht])
  rw [hgs]
  simp [validate_session, hsid, hget, Nat.not_lt.mpr (le_of_lt ht),
    save_sessions_usersFile, huser]

/-- C10 witness: a guest session opened at time 0 over empty stores,
validated at time 3 (well before its 7200-second expiry). -/
theorem C10_guest_session_witness :
    (guest_session (default_config "") 0 "S" "" ""
        ⟨.absent, .absent⟩).1
      = .ok "S" ("guest_" ++ toString 0) (0 + hoursToSeconds 2) ∧
    (validate_session 3 "S" (guest_session (default_config "") 0 "S" ""
        "" ⟨.absent, .absent⟩).2).1
      = .invalid "User account not found or disabled" :=
  C10_guest_session_never_validates (default_config "") rfl 0 3 "S" "" ""
    ⟨.absent, .absent⟩ (by decide) (by decide) rfl
